import Mathlib

/-!
Shallow embedding of the bucketed slot storage of cuCollections
(src/include/cuco/detail/storage/bucket_storage.inl) and the parts of its
base classes and kernels that the file uses.

Modelling conventions:
* Device memory is a total map from slot addresses to slot values
  (Memory T := Nat → T).  Addresses are counted in slot units, so
  sizeof(value_type) corresponds to 1; a bucket_type pointer advanced by one
  moves bucketSize slot units, mirroring C++ pointer arithmetic on
  bucket_type*.
* A CUDA stream is modelled as the ordered queue of bulk-fill operations that
  have been submitted on it and have not yet executed; stream.wait() drains
  the queue, applying each operation to memory in submission order.
* Allocation and deallocation are modelled as observable call records so that
  the counts and allocator identities handed to the allocator can be compared.
-/

/-- Device memory indexed by slot address (slot units). -/
def Memory (T : Type) : Type := Nat → T

/-- C++ pointer arithmetic on a bucket_type pointer: advancing a bucket
pointer by n moves n * bucketSize slot units. -/
def bucketPtrAdd (bucketSize base n : Nat) : Nat := base + n * bucketSize

/-- A reinterpret_cast between pointer types keeps the address unchanged. -/
def reinterpretSlotPtr (addr : Nat) : Nat := addr

/-- Modelled from C++ semantics: __builtin_assume_aligned returns its pointer
argument unchanged; the alignment value is only a compiler hint. -/
def assume_aligned (alignment addr : Nat) : Nat := addr

/-- Reading bucketSize consecutive slots starting at addr: the aggregate load
of one bucket (cuda::std::array of bucketSize slots) from device memory. -/
def bucketRead {T : Type} (mem : Memory T) (addr n : Nat) : List T :=
  (List.range n).map fun k => mem (addr + k)

/-- A bulk-fill operation submitted on a stream: set every slot address in
the half-open range from base to base + capacity to the sentinel value. -/
structure FillOp (T : Type) where
  base : Nat
  capacity : Nat
  sentinel : T

/-- Modelled from the spec: the device kernel detail::initialize of
kernels.cuh (not under src/): a grid-stride fill whose effect is that every
slot in the range from base to base + capacity holds the sentinel, other
addresses untouched. Launch geometry does not affect the effect. -/
def runFill {T : Type} (mem : Memory T) (op : FillOp T) : Memory T :=
  fun a => if op.base ≤ a ∧ a < op.base + op.capacity then op.sentinel else mem a

/-- A stream: the ordered queue of submitted, not yet executed operations. -/
structure StreamRef (T : Type) where
  pending : List (FillOp T)

/-- stream.wait(): blocks until the stream drains; every pending operation is
applied to device memory in submission order, leaving an empty queue. -/
def StreamRef.wait {T : Type} (mem : Memory T) (st : StreamRef T) :
    Memory T × StreamRef T :=
  (st.pending.foldl runFill mem, ⟨[]⟩)

/-- An allocator: an identity (to compare which allocator a call is routed
to) and the base pointer it hands out for a request of n objects. -/
structure Allocator where
  id : Nat
  allocReturn : Nat → Nat

/-- Record of one allocator_.allocate(n) call: which allocator, what count,
what pointer came back. -/
structure AllocCall where
  allocatorId : Nat
  count : Nat
  ptr : Nat

/-- allocator_.allocate(n): returns the base pointer and the observable call
record. -/
def Allocator.allocate (a : Allocator) (n : Nat) : Nat × AllocCall :=
  (a.allocReturn n, ⟨a.id, n, a.allocReturn n⟩)

/-- Record of one deallocate(ptr, n) call at end of life. -/
structure DeallocCall where
  allocatorId : Nat
  ptr : Nat
  count : Nat

/-- Modelled from the spec: the deleter captured at construction
(detail::custom_deleter of storage_base.cuh, not under src/): it stores the
size and the allocator and, at end of life, deallocates exactly that count
with that allocator. -/
structure bucket_deleter where
  size_ : Nat
  allocator_ : Nat

/-- Running the deleter on the owned pointer: one deallocate(ptr, size_) call
routed to the captured allocator. -/
def bucket_deleter.run (d : bucket_deleter) (ptr : Nat) : DeallocCall :=
  ⟨d.allocator_, ptr, d.size_⟩

/-- The non-owning device-side handle bucket_storage_ref: the state of
detail::bucket_storage_base (its extent, a bucket count) plus the base
bucket pointer buckets_. -/
structure bucket_storage_ref where
  bucketSize : Nat
  extent : Nat
  buckets_ : Nat

/-- Modelled from the spec: bucket_storage_base::num_buckets (storage_base.cuh
is not under src/): the extent is convertible to the count of buckets. -/
def bucket_storage_ref.num_buckets (r : bucket_storage_ref) : Nat := r.extent

/-- Modelled from the spec: bucket_storage_base::capacity (storage_base.cuh is
not under src/): capacity = num_buckets * BucketSize, a count of slots. -/
def bucket_storage_ref.capacity (r : bucket_storage_ref) : Nat :=
  r.extent * r.bucketSize

/-- bucket_storage_ref::data() noexcept (non-const overload): returns the
base bucket pointer buckets_. -/
def bucket_storage_ref.data (r : bucket_storage_ref) : Nat := r.buckets_

/-- bucket_storage_ref::data() const noexcept (const overload): returns the
base bucket pointer buckets_. -/
def bucket_storage_ref.dataConst (r : bucket_storage_ref) : Nat := r.buckets_

/-- bucket_storage_ref::iterator: holds a slot pointer current_. -/
structure iterator where
  current_ : Nat

/-- operator==(lhs, rhs): compares the underlying slot addresses. -/
def iterator.eq (lhs rhs : iterator) : Bool := lhs.current_ == rhs.current_

/-- operator!=(lhs, rhs): returns not (lhs == rhs). -/
def iterator.ne (lhs rhs : iterator) : Bool := !(iterator.eq lhs rhs)

/-- bucket_storage_ref::end() noexcept (non-const overload): builds an
iterator from reinterpret_cast to value_type pointer of
this->data() + this->capacity(); the addition is C++ pointer arithmetic on
bucket_type*, so it advances capacity() buckets. -/
def bucket_storage_ref.end_ (r : bucket_storage_ref) : iterator :=
  ⟨reinterpretSlotPtr (bucketPtrAdd r.bucketSize (bucket_storage_ref.data r) (bucket_storage_ref.capacity r))⟩

/-- bucket_storage_ref::end() const noexcept (const overload): same address
computation as the non-const overload, building a const_iterator. -/
def bucket_storage_ref.endConst (r : bucket_storage_ref) : iterator :=
  ⟨reinterpretSlotPtr (bucketPtrAdd r.bucketSize (bucket_storage_ref.dataConst r) (bucket_storage_ref.capacity r))⟩

/-- bucket_storage_ref::operator[](index) const noexcept: dereferences the
bucket pointer this->data() + index after __builtin_assume_aligned with
alignment sizeof(value_type) * bucket_size (one bucket, in slot units),
returning the bucket by value as an aggregate of bucketSize slots. -/
def bucket_storage_ref.opIndex {T : Type} (mem : Memory T)
    (r : bucket_storage_ref) (index : Nat) : List T :=
  bucketRead mem
    (assume_aligned r.bucketSize (bucketPtrAdd r.bucketSize (bucket_storage_ref.data r) index))
    r.bucketSize

/-- The host-side owner bucket_storage: the bucket_storage_base state (the
extent), the stored allocator_, the captured bucket_deleter_, and the owned
base pointer buckets_. -/
structure bucket_storage where
  bucketSize : Nat
  extent : Nat
  allocator_ : Allocator
  bucket_deleter_ : bucket_deleter
  buckets_ : Nat

/-- Modelled from the spec: bucket_storage_base::num_buckets for the owner. -/
def bucket_storage.num_buckets (s : bucket_storage) : Nat := s.extent

/-- Modelled from the spec: bucket_storage_base::capacity for the owner:
num_buckets * BucketSize slots. -/
def bucket_storage.capacity (s : bucket_storage) : Nat :=
  s.extent * s.bucketSize

/-- Modelled from the spec: bucket_storage_base::bucket_extent: the stored
extent. -/
def bucket_storage.bucket_extent (s : bucket_storage) : Nat := s.extent

/-- bucket_storage::data() const noexcept: returns buckets_.get(), the owned
base bucket pointer. -/
def bucket_storage.data (s : bucket_storage) : Nat := s.buckets_

/-- bucket_storage constructor bucket_storage(size, allocator): initializes
the base with the extent, copies the allocator into allocator_, captures
bucket_deleter_{capacity(), allocator_}, and sets
buckets_{allocator_.allocate(capacity()), bucket_deleter_}. Returns the
constructed object together with the observable allocate call. -/
def bucket_storage.construct (bucketSize size : Nat) (allocator : Allocator) :
    bucket_storage × AllocCall :=
  let capacity := size * bucketSize
  let allocator_ := allocator
  let bucket_deleter_ : bucket_deleter := ⟨capacity, allocator_.id⟩
  let alloc := Allocator.allocate allocator_ capacity
  (⟨bucketSize, size, allocator_, bucket_deleter_, alloc.1⟩, alloc.2)

/-- Destruction of the owner: the unique pointer buckets_ runs the captured
deleter on the owned pointer, producing one deallocate call. -/
def bucket_storage.destroy (s : bucket_storage) : DeallocCall :=
  bucket_deleter.run s.bucket_deleter_ s.buckets_

/-- bucket_storage::ref() const noexcept: returns
ref_type{this->bucket_extent(), this->data()}. -/
def bucket_storage.ref (s : bucket_storage) : bucket_storage_ref :=
  ⟨s.bucketSize, bucket_storage.bucket_extent s, bucket_storage.data s⟩

/-- bucket_storage::initialize_async(key, stream) noexcept: if num_buckets()
is zero, returns at once launching nothing; otherwise launches the
detail::initialize kernel on the stream with (data(), num_buckets(), key),
whose effect is to fill every slot in the range from data() to
data() + capacity (slot units) with key. Returns the stream state and the
number of kernel launches performed. -/
def bucket_storage.initialize_async {T : Type} (s : bucket_storage) (key : T)
    (stream : StreamRef T) : StreamRef T × Nat :=
  if bucket_storage.num_buckets s = 0 then (stream, 0)
  else (⟨stream.pending ++ [⟨bucket_storage.data s, bucket_storage.capacity s, key⟩]⟩, 1)

/-- bucket_storage::initialize(key, stream) (source name: initialize): calls
this->initialize_async(key, stream) and then stream.wait(). Returns the
memory after the blocking wait, the drained stream, and the number of kernel
launches performed. -/
def bucket_storage.initialize_sync {T : Type} (s : bucket_storage) (key : T)
    (mem : Memory T) (stream : StreamRef T) : Memory T × StreamRef T × Nat :=
  let p := bucket_storage.initialize_async s key stream
  let q := StreamRef.wait mem p.1
  (q.1, q.2, p.2)

/-- Follows the spec words, for comparison with the source composition: a
synchronous bulk initialization first lets previously submitted stream work
run, then, unless the storage has zero buckets, sets every slot in the range
from base to base + capacity to the sentinel; it returns only when the
stream has drained (empty queue), reporting how many kernels were launched. -/
def initializeSpecModel {T : Type} (s : bucket_storage) (key : T)
    (mem : Memory T) (stream : StreamRef T) : Memory T × StreamRef T × Nat :=
  let memAfterPrior := stream.pending.foldl runFill mem
  if bucket_storage.num_buckets s = 0 then (memAfterPrior, ⟨[]⟩, 0)
  else
    (fun a =>
        if bucket_storage.data s ≤ a ∧ a < bucket_storage.data s + bucket_storage.capacity s
        then key else memAfterPrior a,
      ⟨[]⟩, 1)

/-- Modelled from C++ semantics: static_assert(cond) compiles exactly when
cond holds; the value is whether compilation of the assertion succeeds. -/
def static_assert (cond : Bool) : Bool := cond

/-- Modelled from C++ semantics: in the source's
static_assert of the string literal about an un-incrementable input iterator,
the literal undergoes array-to-pointer decay and contextual pointer-to-bool
conversion; the address of a string literal is never null, so the condition
is true. -/
def unIncrementableLiteralAsBool : Bool := true

/-- Whether the body of iterator::operator++() (prefix) compiles: its only
statement is static_assert on the string literal condition. -/
def opIncAssertPasses : Bool := static_assert unIncrementableLiteralAsBool

/-- Whether the body of iterator::operator++(int32_t) (postfix) compiles: its
only statement is the same static_assert on the string literal condition. -/
def opIncPostAssertPasses : Bool := static_assert unIncrementableLiteralAsBool

/-! Concrete instances used by the witnesses. -/

/-- An example allocator with identity 5 handing out base pointer 100. -/
def allocEx : Allocator := ⟨5, fun _ => 100⟩

/-- An example owner: BucketSize 4, extent 3 buckets, so capacity 12 slots. -/
def storageEx : bucket_storage := (bucket_storage.construct 4 3 allocEx).1

/-- An example owner with zero buckets: BucketSize 1, extent 0. -/
def storageZeroEx : bucket_storage := (bucket_storage.construct 1 0 allocEx).1

/-- Example device memory: every slot initially 0. -/
def memEx : Memory Nat := fun _ => 0

/-- An example stream with nothing pending. -/
def streamEx : StreamRef Nat := ⟨[]⟩

/-- An example ref extracted from storageEx. -/
def refEx : bucket_storage_ref := bucket_storage.ref storageEx

/-- A small ref for the C2 counterexample: BucketSize 2, one bucket, base 0. -/
def refEx2 : bucket_storage_ref := ⟨2, 1, 0⟩

/-! Theorems settling the claims. -/

/-- Helper: the memory produced by a blocking initialize call is the prior
pending work applied, overwritten by the bulk fill when there are buckets. -/
theorem initialize_sync_mem_eq {T : Type} (s : bucket_storage) (key : T)
    (mem : Memory T) (stream : StreamRef T) :
    (bucket_storage.initialize_sync s key mem stream).1 =
      if bucket_storage.num_buckets s = 0 then stream.pending.foldl runFill mem
      else runFill (stream.pending.foldl runFill mem)
        ⟨bucket_storage.data s, bucket_storage.capacity s, key⟩ := by
  by_cases h : bucket_storage.num_buckets s = 0 <;>
    simp [bucket_storage.initialize_sync, bucket_storage.initialize_async,
      StreamRef.wait, h, List.foldl_append]

/-- Claim C1: after a blocking initialize with sentinel key, every slot index
below the capacity holds key, and every slot of every in-range bucket read
through the extracted ref holds key. -/
theorem C1_initialize_fills_all {T : Type} (s : bucket_storage) (key : T)
    (mem : Memory T) (stream : StreamRef T) :
    (∀ i, i < bucket_storage.capacity s →
      (bucket_storage.initialize_sync s key mem stream).1 (bucket_storage.data s + i) = key) ∧
    (∀ b, b < bucket_storage.num_buckets s → ∀ k, k < s.bucketSize →
      (bucket_storage_ref.opIndex (bucket_storage.initialize_sync s key mem stream).1
          (bucket_storage.ref s) b)[k]? = some key) := by
  have hmem : ∀ a, bucket_storage.data s ≤ a →
      a < bucket_storage.data s + bucket_storage.capacity s →
      (bucket_storage.initialize_sync s key mem stream).1 a = key := by
    intro a h1 h2
    have hnb : ¬ bucket_storage.num_buckets s = 0 := by
      intro h0
      have hc : bucket_storage.capacity s = 0 := by
        simp only [bucket_storage.num_buckets] at h0
        simp [bucket_storage.capacity, h0]
      omega
    rw [initialize_sync_mem_eq, if_neg hnb]
    unfold runFill
    rw [if_pos ⟨h1, h2⟩]
  refine ⟨fun i hi => hmem _ (Nat.le_add_right _ _) (by omega), ?_⟩
  intro b hb k hk
  have hlt : b * s.bucketSize + k < bucket_storage.capacity s := by
    have hstep : b * s.bucketSize + k < (b + 1) * s.bucketSize := by
      rw [Nat.add_mul, Nat.one_mul]; omega
    have hmul : (b + 1) * s.bucketSize ≤ bucket_storage.num_buckets s * s.bucketSize :=
      Nat.mul_le_mul_right _ hb
    exact Nat.lt_of_lt_of_le hstep hmul
  have haddr :
      (bucket_storage_ref.opIndex (bucket_storage.initialize_sync s key mem stream).1
          (bucket_storage.ref s) b)[k]? =
        some ((bucket_storage.initialize_sync s key mem stream).1
          (bucket_storage.data s + b * s.bucketSize + k)) := by
    simp [bucket_storage_ref.opIndex, bucketRead, assume_aligned, bucketPtrAdd,
      bucket_storage.ref, bucket_storage_ref.data, bucket_storage.data,
      List.getElem?_map, List.getElem?_range, hk, bucket_storage.bucket_extent]
  rw [haddr, Nat.add_assoc]
  rw [hmem (bucket_storage.data s + (b * s.bucketSize + k)) (Nat.le_add_right _ _) (by omega)]

/-- Claim C1 witness: with BucketSize 4, extent 3, base 100, sentinel 7 and an
empty stream, slot 5 holds 7 and slot 2 of bucket 1 reads back 7. -/
theorem C1_witness :
    (bucket_storage.initialize_sync storageEx 7 memEx streamEx).1
        (bucket_storage.data storageEx + 5) = 7 ∧
    (bucket_storage_ref.opIndex (bucket_storage.initialize_sync storageEx 7 memEx streamEx).1
        (bucket_storage.ref storageEx) 1)[2]? = some 7 :=
  ⟨(C1_initialize_fills_all storageEx 7 memEx streamEx).1 5 (by decide),
   (C1_initialize_fills_all storageEx 7 memEx streamEx).2 1 (by decide) 2 (by decide)⟩

/-- Claim C2 counterexample: with BucketSize 2, one bucket (capacity 2
slots) and base address 0, the iterator returned by end() holds address 4,
not the address one past the last slot, data() + capacity = 2: the addition
in the source is bucket-pointer arithmetic, not slot-pointer arithmetic. -/
theorem C2_counterexample :
    ¬ ((bucket_storage_ref.end_ refEx2).current_ =
        reinterpretSlotPtr (bucket_storage_ref.data refEx2 + bucket_storage_ref.capacity refEx2)) := by
  decide

/-- Claim C2 as amended: both overloads of end() hold the address
data() + capacity computed with bucket-pointer arithmetic, that is the slot
address data() + capacity * BucketSize; this is one past the last slot only
when BucketSize = 1 or the capacity is 0. -/
theorem C2_end_address (r : bucket_storage_ref) :
    (bucket_storage_ref.end_ r).current_ =
        bucket_storage_ref.data r + bucket_storage_ref.capacity r * r.bucketSize ∧
    (bucket_storage_ref.endConst r).current_ =
        bucket_storage_ref.data r + bucket_storage_ref.capacity r * r.bucketSize ∧
    (r.bucketSize = 1 ∨ bucket_storage_ref.capacity r = 0 →
      (bucket_storage_ref.end_ r).current_ =
        bucket_storage_ref.data r + bucket_storage_ref.capacity r) := by
  refine ⟨rfl, rfl, ?_⟩
  intro h
  show bucket_storage_ref.data r + bucket_storage_ref.capacity r * r.bucketSize =
    bucket_storage_ref.data r + bucket_storage_ref.capacity r
  rcases h with h1 | h0
  · rw [h1, Nat.mul_one]
  · rw [h0, Nat.zero_mul]

/-- Claim C2 amended-theorem witness: at BucketSize 2, one bucket, base 0,
the end address is 0 + 2 * 2 = 4. -/
theorem C2_witness :
    (bucket_storage_ref.end_ refEx2).current_ =
      bucket_storage_ref.data refEx2 + bucket_storage_ref.capacity refEx2 * refEx2.bucketSize :=
  (C2_end_address refEx2).1

/-- Claim C3: the static_assert in both increment operators has a string
literal as its condition, which converts to true, so the assertion passes
and a use of operator++ is not rejected at compile time: the claimed static
error never happens, contradicting the documented contract. -/
theorem C3_increment_not_static_error :
    opIncAssertPasses = true ∧ opIncPostAssertPasses = true :=
  ⟨rfl, rfl⟩

/-- Claim C4: for bucket_index below num_buckets, operator[] returns by
value the aggregate of BucketSize slots stored at the bucket address
base + bucket_index (slot address data() + bucket_index * BucketSize), and
when the base pointer is aligned to one bucket the loaded address is too. -/
theorem C4_opIndex_spec {T : Type} (mem : Memory T) (r : bucket_storage_ref)
    (i : Nat) (hi : i < bucket_storage_ref.num_buckets r)
    (halign : bucket_storage_ref.data r % r.bucketSize = 0) :
    (bucket_storage_ref.opIndex mem r i).length = r.bucketSize ∧
    (∀ k, k < r.bucketSize →
      (bucket_storage_ref.opIndex mem r i)[k]? =
        some (mem (bucket_storage_ref.data r + i * r.bucketSize + k))) ∧
    (bucketPtrAdd r.bucketSize (bucket_storage_ref.data r) i) % r.bucketSize = 0 := by
  refine ⟨?_, ?_, ?_⟩
  · simp [bucket_storage_ref.opIndex, bucketRead]
  · intro k hk
    simp [bucket_storage_ref.opIndex, bucketRead, assume_aligned, bucketPtrAdd,
      List.getElem?_map, List.getElem?_range, hk]
  · show (bucket_storage_ref.data r + i * r.bucketSize) % r.bucketSize = 0
    rw [Nat.add_mul_mod_self_right]
    exact halign

/-- Claim C4 witness: on the example ref (BucketSize 4, 3 buckets, base
100), bucket 2 slot 1 is read from address 100 + 2 * 4 + 1. -/
theorem C4_witness :
    (bucket_storage_ref.opIndex memEx refEx 2)[1]? =
      some (memEx (bucket_storage_ref.data refEx + 2 * refEx.bucketSize + 1)) :=
  (C4_opIndex_spec memEx refEx 2 (by decide) (by decide)).2.1 1 (by decide)

/-- Claim C5: when num_buckets is zero, initialize_async returns the stream
untouched and launches no kernel, and the blocking initialize launches no
kernel either, only draining whatever was already pending; neither reports
an error (both are total and return normally). -/
theorem C5_zero_buckets_noop {T : Type} (s : bucket_storage) (key : T)
    (mem : Memory T) (stream : StreamRef T)
    (h : bucket_storage.num_buckets s = 0) :
    bucket_storage.initialize_async s key stream = (stream, 0) ∧
    bucket_storage.initialize_sync s key mem stream =
      ((StreamRef.wait mem stream).1, (StreamRef.wait mem stream).2, 0) := by
  constructor
  · simp [bucket_storage.initialize_async, h]
  · simp [bucket_storage.initialize_sync, bucket_storage.initialize_async, h]

/-- Claim C5 witness: the zero-bucket example storage leaves the empty
stream untouched and launches nothing. -/
theorem C5_witness :
    bucket_storage.initialize_async storageZeroEx (7 : Nat) streamEx = (streamEx, 0) :=
  (C5_zero_buckets_noop storageZeroEx 7 memEx streamEx (by decide)).1

/-- Claim C6: the blocking initialize equals the spec-side model: it submits
the same bulk write as initialize_async and returns only once the stream has
drained (empty queue); initialize_async itself only queues the fill after
the previously pending work, executing nothing on the host. -/
theorem C6_initialize_refines_spec {T : Type} (s : bucket_storage) (key : T)
    (mem : Memory T) (stream : StreamRef T) :
    bucket_storage.initialize_sync s key mem stream = initializeSpecModel s key mem stream ∧
    (bucket_storage.initialize_sync s key mem stream).2.1.pending = [] ∧
    (bucket_storage.initialize_async s key stream).1.pending =
      stream.pending ++
        (if bucket_storage.num_buckets s = 0 then []
         else [⟨bucket_storage.data s, bucket_storage.capacity s, key⟩]) := by
  refine ⟨?_, ?_, ?_⟩
  · by_cases h : bucket_storage.num_buckets s = 0
    · simp [bucket_storage.initialize_sync, bucket_storage.initialize_async,
        StreamRef.wait, initializeSpecModel, h]
    · have hstep : bucket_storage.initialize_sync s key mem stream =
          (runFill (stream.pending.foldl runFill mem)
            ⟨bucket_storage.data s, bucket_storage.capacity s, key⟩, ⟨[]⟩, 1) := by
        simp [bucket_storage.initialize_sync, bucket_storage.initialize_async,
          StreamRef.wait, h, List.foldl_append]
      rw [hstep]
      simp only [initializeSpecModel, if_neg h]
      rfl
  · by_cases h : bucket_storage.num_buckets s = 0 <;>
      simp [bucket_storage.initialize_sync, bucket_storage.initialize_async,
        StreamRef.wait, h]
  · by_cases h : bucket_storage.num_buckets s = 0 <;>
      simp [bucket_storage.initialize_async, h]

/-- Claim C7: construction requests capacity() buckets from the allocator
and captures a deleter holding exactly that capacity and that allocator;
destruction hands the allocator back the same pointer with the same count. -/
theorem C7_deleter_matches_allocation (bucketSize size : Nat) (a : Allocator) :
    ((bucket_storage.construct bucketSize size a).2).count =
        bucket_storage.capacity (bucket_storage.construct bucketSize size a).1 ∧
    ((bucket_storage.construct bucketSize size a).1).bucket_deleter_ =
        ⟨bucket_storage.capacity (bucket_storage.construct bucketSize size a).1, a.id⟩ ∧
    bucket_storage.destroy (bucket_storage.construct bucketSize size a).1 =
        ⟨a.id, ((bucket_storage.construct bucketSize size a).1).buckets_,
          ((bucket_storage.construct bucketSize size a).2).count⟩ :=
  ⟨rfl, rfl, rfl⟩

/-- Claim C8: any two refs produced by ref() from the same owner agree on
data() and num_buckets, and each holds exactly the owner's bucket extent and
base pointer; ref() is a pure read of the owner state. -/
theorem C8_ref_stability (s : bucket_storage) (r₁ r₂ : bucket_storage_ref)
    (h₁ : r₁ = bucket_storage.ref s) (h₂ : r₂ = bucket_storage.ref s) :
    bucket_storage_ref.data r₁ = bucket_storage_ref.data r₂ ∧
    bucket_storage_ref.num_buckets r₁ = bucket_storage_ref.num_buckets r₂ ∧
    bucket_storage_ref.data r₁ = bucket_storage.data s ∧
    r₁.extent = bucket_storage.bucket_extent s ∧
    r₁.bucketSize = s.bucketSize := by
  subst h₁; subst h₂
  exact ⟨rfl, rfl, rfl, rfl, rfl⟩

/-- Claim C8 witness: two calls of ref() on the example storage agree and
expose config base pointer 100. -/
theorem C8_witness :
    bucket_storage_ref.data (bucket_storage.ref storageEx) = bucket_storage.data storageEx :=
  (C8_ref_stability storageEx (bucket_storage.ref storageEx)
      (bucket_storage.ref storageEx) rfl rfl).2.2.1

/-- Claim C9: iterators built from slot pointers p and q compare equal
exactly when p = q; inequality is the pointwise negation of equality. -/
theorem C9_iterator_equality (p q : Nat) (a b : iterator) :
    (iterator.eq ⟨p⟩ ⟨q⟩ = true ↔ p = q) ∧
    iterator.ne a b = !(iterator.eq a b) ∧
    (iterator.ne ⟨p⟩ ⟨q⟩ = true ↔ ¬ p = q) := by
  refine ⟨?_, rfl, ?_⟩ <;> simp [iterator.eq, iterator.ne]

/-- Claim C10: the const and non-const data() overloads return the same
pointer, and the const and non-const end() overloads return iterators
holding the same address (indeed equal iterators). -/
theorem C10_const_overloads_agree (r : bucket_storage_ref) :
    bucket_storage_ref.dataConst r = bucket_storage_ref.data r ∧
    (bucket_storage_ref.endConst r).current_ = (bucket_storage_ref.end_ r).current_ ∧
    bucket_storage_ref.endConst r = bucket_storage_ref.end_ r :=
  ⟨rfl, rfl, rfl⟩
